import Mathlib

/-!
Verification development for the minimesh mesh-collection protocol core
(`src/minimesh2.hpp`, with `src/minimesh.hpp` as the earlier revision of the
same library and `src/bytes.hpp` for the byte-view types).

The embedding is a shallow one.  The C++ core is single-threaded and talks to
the host only through four primitives (`receive`, `transmit`, `sleep`,
`is_channel_busy`) plus the collector callback, so every protocol procedure is
translated as a pure Lean function over:

* an environment `Env` holding the sequence of results the host's `receive`
  will hand back (`rx`, one `RxEvent` per `receive` call; an event of `len = 0`
  is a timeout) and the sequence of answers `is_channel_busy` will give
  (`busy`; an exhausted list reads as a free channel), and
* producing, beside its result, the trace (`List Ev`) of host-primitive calls
  the C++ code performs: sleeps, carrier-sense checks, transmissions (the raw
  bytes handed to `transmit`), receive calls, and collector-callback
  invocations.

Packets travel as raw little-endian bytes exactly as on the C++ side, where a
received buffer is `reinterpret_cast` to `Packet`: the header accessors
(`read32` at offsets 0/4/8) read the buffer irrespective of the reported
received length, mirroring the pointer aliasing of the source.  Unbounded
recursions of the source (`find_parent`'s restart, `proxy_children`'s "try
again") take an explicit fuel argument; all other loops of the source are
bounded by an attempt counter or consume one receive result per iteration and
are translated structurally.
-/

set_option maxRecDepth 8192

namespace Minimesh2

/-- Message-type codes, the values of the C++ `enum MsgType : uint32_t`. -/
def iAmParentCode : Nat := 0

/-- `MsgType::IAmChild`. -/
def iAmChildCode : Nat := 1

/-- `MsgType::Data`. -/
def dataCode : Nat := 2

/-- `MsgType::EndOfData`. -/
def endOfDataCode : Nat := 3

/-- `MsgType::Ack`. -/
def ackCode : Nat := 4

/-- `static constexpr uint32_t max_packet_size = 255`. -/
def max_packet_size : Nat := 255

/-- `header_size = sizeof(MsgType) + sizeof(uint32_t) + sizeof(uint32_t)` = 12. -/
def header_size : Nat := 12

/-- `static constexpr uint32_t max_data_length = max_packet_size - header_size`. -/
def max_data_length : Nat := max_packet_size - header_size

/-- `static constexpr auto sleep_time = (id % 9000) + 1000`. -/
def sleep_time (id : Nat) : Nat := id % 9000 + 1000

/-- The configuration-time validation of the template parameter `data_length`:
`static_assert(data_length < max_packet_size, "Data cannot be longer than 255 bytes")`. -/
def config_ok (data_length : Nat) : Prop := data_length < max_packet_size

/-- Read a little-endian `uint32_t` at byte offset `off` of a buffer, as the
`reinterpret_cast<Packet *>` field accesses do; bytes beyond the buffer read 0. -/
def read32 (buf : List Nat) (off : Nat) : Nat :=
  buf.getD off 0 + 256 * buf.getD (off + 1) 0 + 65536 * buf.getD (off + 2) 0 +
    16777216 * buf.getD (off + 3) 0

/-- Little-endian byte serialization of a `uint32_t` value. -/
def write32 (x : Nat) : List Nat :=
  [x % 256, x / 256 % 256, x / 65536 % 256, x / 16777216 % 256]

/-- The 12 header bytes of a packet: `msg_type`, `transmitter_id`, `receiver_id`. -/
def encodeHeader (mt tid rid : Nat) : List Nat := write32 mt ++ write32 tid ++ write32 rid

/-- The in-place store `packet->receiver_id = rid` on a packet's backing buffer:
overwrite the 4 bytes at offset 8. -/
def setReceiver (buf : List Nat) (rid : Nat) : List Nat :=
  buf.take 8 ++ write32 rid ++ buf.drop 12

/-- One result of the host's `receive`: the backing buffer the returned pointer
aliases, and the reported received byte count (`0` = timeout). -/
structure RxEvent where
  buf : List Nat
  len : Nat
deriving DecidableEq, Repr

/-- `packet->msg_type` of a received buffer. -/
def RxEvent.msg_type (e : RxEvent) : Nat := read32 e.buf 0

/-- `packet->transmitter_id` of a received buffer. -/
def RxEvent.transmitter_id (e : RxEvent) : Nat := read32 e.buf 4

/-- `packet->receiver_id` of a received buffer. -/
def RxEvent.receiver_id (e : RxEvent) : Nat := read32 e.buf 8

/-- One host-primitive call performed by the protocol core. -/
inductive Ev where
  | sleep (us : Nat)
  | busyCheck (b : Bool)
  | tx (bytes : List Nat)
  | rxCall (timeout_ms : Nat)
  | callback (tid : Nat) (bytes : List Nat)
deriving DecidableEq, Repr

/-- The environment a run consumes: pending `receive` results and pending
`is_channel_busy` answers. -/
structure Env where
  rx : List RxEvent
  busy : List Bool
deriving DecidableEq, Repr

/-- The bytes handed to `transmit` over a trace, in order. -/
def txs : List Ev → List (List Nat)
  | [] => []
  | Ev.tx b :: t => b :: txs t
  | _ :: t => txs t

/-- The collector-callback invocations of a trace, in order. -/
def callbackEvents : List Ev → List (Nat × List Nat)
  | [] => []
  | Ev.callback i b :: t => (i, b) :: callbackEvents t
  | _ :: t => callbackEvents t

/-- The timeouts of the `receive` calls of a trace, in order. -/
def rxCallTimeouts : List Ev → List Nat
  | [] => []
  | Ev.rxCall ms :: t => ms :: rxCallTimeouts t
  | _ :: t => rxCallTimeouts t

/-- The number of `sleep` calls in a trace. -/
def sleepCount : List Ev → Nat
  | [] => 0
  | Ev.sleep _ :: t => sleepCount t + 1
  | _ :: t => sleepCount t

/-- `while (is_channel_busy()) sleep(sleep_time);` — the carrier-sense loop
shared by `deliver`, `transmit_i_am_parent` and `send_ack`. -/
def while_busy_sleep (id : Nat) : List Bool → List Bool × List Ev
  | [] => ([], [Ev.busyCheck false])
  | b :: rest =>
    if b then
      let s := while_busy_sleep id rest
      (s.1, Ev.busyCheck true :: Ev.sleep (sleep_time id) :: s.2)
    else (rest, [Ev.busyCheck false])

/-- `get_ack(transmitter_id)`: up to the given number of attempts, call
`receive_packet(10)`; skip timeouts; succeed on the first packet with
`receiver_id == id`, `transmitter_id == tid`, `msg_type == Ack`
(source lines 215-230 of minimesh2.hpp). -/
def get_ack (id tid : Nat) : Nat → List RxEvent → Bool × List RxEvent × List Ev
  | 0, rx => (false, rx, [])
  | n + 1, rx =>
    match rx with
    | [] =>
      let s := get_ack id tid n []
      (s.1, s.2.1, Ev.rxCall 10 :: s.2.2)
    | e :: rest =>
      if e.len = 0 then
        let s := get_ack id tid n rest
        (s.1, s.2.1, Ev.rxCall 10 :: s.2.2)
      else
        if e.receiver_id = id ∧ e.transmitter_id = tid ∧ e.msg_type = ackCode then
          (true, rest, [Ev.rxCall 10])
        else
          let s := get_ack id tid n rest
          (s.1, s.2.1, Ev.rxCall 10 :: s.2.2)

/-- The attempt loop of `deliver`: each attempt sleeps `sleep_time`, spins on
carrier sense, transmits the first `len` bytes of the packet buffer, and waits
for an ack addressed from `packet->receiver_id`; `Ok` stops the loop
(source lines 202-214 of minimesh2.hpp, generalized over the attempt count). -/
def deliver_loop (id : Nat) (pkt : List Nat) (len : Nat) : Nat → Env → Bool × Env × List Ev
  | 0, env => (false, env, [])
  | n + 1, env =>
    let w := while_busy_sleep id env.busy
    let a := get_ack id (read32 pkt 8) 3 env.rx
    if a.1 then
      (true, ⟨a.2.1, w.1⟩, Ev.sleep (sleep_time id) :: w.2 ++ Ev.tx (pkt.take len) :: a.2.2)
    else
      let d := deliver_loop id pkt len n ⟨a.2.1, w.1⟩
      (d.1, d.2.1,
        Ev.sleep (sleep_time id) :: w.2 ++ Ev.tx (pkt.take len) :: a.2.2 ++ d.2.2)

/-- `deliver(packet_wrapper)`: the attempt loop run with 10 attempts. -/
def deliver (id : Nat) (pkt : List Nat) (len : Nat) (env : Env) : Bool × Env × List Ev :=
  deliver_loop id pkt len 10 env

/-- `send_ack(receiver_id)`: carrier-sense (without a leading backoff sleep),
then transmit the header-only `Ack` frame (source lines 259-270). -/
def send_ack (id rid : Nat) (busy : List Bool) : List Bool × List Ev :=
  let w := while_busy_sleep id busy
  (w.1, w.2 ++ [Ev.tx (encodeHeader ackCode id rid)])

/-- `transmit_i_am_parent()`: backoff sleep, carrier-sense loop, then transmit
the broadcast `IAmParent` header (source lines 231-242). -/
def transmit_i_am_parent (id : Nat) (busy : List Bool) : List Bool × List Ev :=
  let w := while_busy_sleep id busy
  (w.1, Ev.sleep (sleep_time id) :: w.2 ++ [Ev.tx (encodeHeader iAmParentCode id 0)])

/-- The reception loop of `count_children`: `receive_packet(100)` until a
timeout; ack and count each `IAmChild` frame addressed to this node
(source lines 170-181). -/
def count_children_loop (id : Nat) : List RxEvent → List Bool → Nat × Env × List Ev
  | [], busy => (0, ⟨[], busy⟩, [Ev.rxCall 100])
  | e :: rest, busy =>
    if e.len = 0 then (0, ⟨rest, busy⟩, [Ev.rxCall 100])
    else
      if e.receiver_id = id ∧ e.msg_type = iAmChildCode then
        let s := send_ack id e.transmitter_id busy
        let c := count_children_loop id rest s.1
        (c.1 + 1, c.2.1, Ev.rxCall 100 :: s.2 ++ c.2.2)
      else
        let c := count_children_loop id rest busy
        (c.1, c.2.1, Ev.rxCall 100 :: c.2.2)

/-- `count_children()`: broadcast `IAmParent`, then run the reception loop
(source lines 167-181). -/
def count_children (id : Nat) (env : Env) : Nat × Env × List Ev :=
  let p := transmit_i_am_parent id env.busy
  let c := count_children_loop id env.rx p.1
  (c.1, c.2.1, p.2 ++ c.2.2)

/-- The drain loop of `run_as_collector` (source lines 126-145):
`while (child_count > 0)` receive with a 5000 ms timeout, return on timeout,
skip frames not addressed to this node, decrement and ack on `EndOfData`,
invoke the collector callback with `(transmitter_id, the received bytes)` and
ack on `Data`.  The callback hands over
`{reinterpret_cast<uint8_t *>(packet), length}` — the first `length` bytes of
the receive buffer, header included. -/
def collector_loop (id : Nat) : List RxEvent → Nat → List Bool → Env × List Ev
  | rx, 0, busy => (⟨rx, busy⟩, [])
  | [], _ + 1, busy => (⟨[], busy⟩, [Ev.rxCall 5000])
  | e :: rest, cc + 1, busy =>
    if e.len = 0 then (⟨rest, busy⟩, [Ev.rxCall 5000])
    else
      if e.receiver_id ≠ id then
        let c := collector_loop id rest (cc + 1) busy
        (c.1, Ev.rxCall 5000 :: c.2)
      else
        let cc1 := if e.msg_type = endOfDataCode then cc else cc + 1
        let s1 := if e.msg_type = endOfDataCode then
            send_ack id e.transmitter_id busy
          else (busy, [])
        let s2 := if e.msg_type = dataCode then
            let a := send_ack id e.transmitter_id s1.1
            (a.1, Ev.callback e.transmitter_id (e.buf.take e.len) :: a.2)
          else (s1.1, [])
        let c := collector_loop id rest cc1 s2.1
        (c.1, Ev.rxCall 5000 :: s1.2 ++ s2.2 ++ c.2)

/-- `run_as_collector()`: `count_children`, then the drain loop
(source lines 123-146). -/
def run_as_collector (id : Nat) (env : Env) : Env × List Ev :=
  let c := count_children id env
  let d := collector_loop id c.2.1.rx c.1 c.2.1.busy
  (d.1, c.2.2 ++ d.2)

/-- `proxy_children(parent_id, child_count)` (source lines 183-201), with an
explicit fuel for the source's unbounded "try again" recursion.  Note the
`Data` branch of the source acks, rewrites `receiver_id` in place, calls
`deliver` — and then returns without recursing. -/
def proxy_children (id parent_id : Nat) : Nat → Nat → Env → Env × List Ev
  | _, 0, env => (env, [])
  | 0, _ + 1, env => (env, [])
  | fuel + 1, cc + 1, env =>
    match env.rx with
    | [] => (⟨[], env.busy⟩, [Ev.rxCall 5000])
    | e :: rest =>
      if e.len = 0 then (⟨rest, env.busy⟩, [Ev.rxCall 5000])
      else
        if e.receiver_id ≠ id then
          let p := proxy_children id parent_id fuel (cc + 1) ⟨rest, env.busy⟩
          (p.1, Ev.rxCall 5000 :: p.2)
        else
          if e.msg_type ≠ dataCode ∧ e.msg_type ≠ endOfDataCode then
            let p := proxy_children id parent_id fuel (cc + 1) ⟨rest, env.busy⟩
            (p.1, Ev.rxCall 5000 :: p.2)
          else
            let s := send_ack id e.transmitter_id env.busy
            if e.msg_type = endOfDataCode then
              let p := proxy_children id parent_id fuel cc ⟨rest, s.1⟩
              (p.1, Ev.rxCall 5000 :: s.2 ++ p.2)
            else
              let d := deliver id (setReceiver e.buf parent_id) e.len ⟨rest, s.1⟩
              (d.2.1, Ev.rxCall 5000 :: s.2 ++ d.2.2)

/-- `find_parent()` (source lines 147-166), with an explicit fuel for the
source's unbounded restart recursion; an exhausted receive stream or fuel
yields `none` (the source would still be blocked in `receive(0)` or
restarting).  Any frame whose `msg_type` is `IAmParent` is accepted — no
`receiver_id` or length check — and answered with a delivered `IAmChild`
frame addressed to the inviter. -/
def find_parent (id : Nat) : Nat → Env → Option Nat × Env × List Ev
  | 0, env => (none, env, [])
  | fuel + 1, env =>
    match env.rx with
    | [] => (none, ⟨[], env.busy⟩, [Ev.rxCall 0])
    | e :: rest =>
      if e.msg_type ≠ iAmParentCode then
        let f := find_parent id fuel ⟨rest, env.busy⟩
        (f.1, f.2.1, Ev.rxCall 0 :: f.2.2)
      else
        let d := deliver id (encodeHeader iAmChildCode id e.transmitter_id)
          header_size ⟨rest, env.busy⟩
        if d.1 then
          (some e.transmitter_id, d.2.1, Ev.rxCall 0 :: d.2.2)
        else
          let f := find_parent id fuel d.2.1
          (f.1, f.2.1, Ev.rxCall 0 :: d.2.2 ++ f.2.2)

/-- The sensor's pre-allocated `data_packet` right after the initializing
lambda ran (source lines 107-114): a zeroed static buffer of
`header_size + data_length` bytes with `msg_type = Data` and
`transmitter_id = id` stored; the `receiver_id` field still holds the zero
of the static initialization. -/
def data_packet_init (id data_length : Nat) : List Nat :=
  encodeHeader dataCode id 0 ++ List.replicate data_length 0

/-- A user write of payload `p` through the pointer `get_data_buffer()`
returns: the payload area starts at byte offset `header_size` of the packet
buffer, so the header bytes are out of the user's reach. -/
def set_payload (mem : List Nat) (p : List Nat) : List Nat := mem.take 12 ++ p

/-- `get_data_buffer()`: the payload area `data_packet->data` of the packet
buffer (source lines 38-43). -/
def get_data_buffer (mem : List Nat) : List Nat := mem.drop 12

/-- `send_own_data(parent_id)` (source lines 243-248): store `parent_id` into
`data_packet->receiver_id` and deliver `header_size + data_length` bytes of
the packet buffer; the delivery result is discarded. -/
def send_own_data (id data_length parent_id : Nat) (mem : List Nat) (env : Env) :
    Env × List Ev :=
  let d := deliver id (setReceiver mem parent_id) (header_size + data_length) env
  (d.2.1, d.2.2)

/-- `send_end_of_data(parent_id)` (source lines 249-258): deliver a header-only
`EndOfData` frame addressed to the parent; the delivery result is discarded. -/
def send_end_of_data (id parent_id : Nat) (env : Env) : Env × List Ev :=
  let d := deliver id (encodeHeader endOfDataCode id parent_id) header_size env
  (d.2.1, d.2.2)

/-- The ack-matching predicate of `get_ack`, on one receive result: a
non-timeout frame with `receiver_id = id`, `transmitter_id = tid`,
`msg_type = Ack`. -/
def isAckFor (id tid : Nat) (e : RxEvent) : Bool :=
  e.len != 0 && (e.receiver_id == id && (e.transmitter_id == tid && e.msg_type == ackCode))

/-- Specification view of `deliver`'s outcome: the receive stream is consumed
in windows of (up to) 3 results, one window per transmission attempt, and
delivery succeeds exactly when one of the `n` windows contains a matching
ack. -/
def ackWindows (id tid : Nat) : Nat → List RxEvent → Bool
  | 0, _ => false
  | n + 1, rx => (rx.take 3).any (isAckFor id tid) || ackWindows id tid n (rx.drop 3)

end Minimesh2

namespace Minimesh1

open Minimesh2

/-! Embedding of the earlier revision of the library, `src/minimesh.hpp`,
restricted to its proxy path: the data model and host interface are the same,
so the byte-level `RxEvent`/`Env`/`Ev` machinery is shared with the
`Minimesh2` development. -/

/-- `get_with_validator(is_valid, max_attempts)` (minimesh.hpp lines 180-200):
up to `max_attempts` calls of `receive_packet(100)`; an empty result ends the
search empty; the first frame satisfying the validator is returned; other
frames spend an attempt. -/
def get_with_validator (valid : RxEvent → Bool) : Nat → List RxEvent →
    Option RxEvent × List RxEvent × List Ev
  | 0, rx => (none, rx, [])
  | n + 1, rx =>
    match rx with
    | [] => (none, [], [Ev.rxCall 100])
    | e :: rest =>
      if e.len = 0 then (none, rest, [Ev.rxCall 100])
      else
        if valid e then (some e, rest, [Ev.rxCall 100])
        else
          let s := get_with_validator valid n rest
          (s.1, s.2.1, Ev.rxCall 100 :: s.2.2)

/-- `get_child_data()` (minimesh.hpp lines 155-168): a validated receive for a
`Data` or `EndOfData` frame addressed to this node, 10 attempts; the frame is
acked before being returned. -/
def get_child_data (id : Nat) (rx : List RxEvent) (busy : List Bool) :
    Option RxEvent × Env × List Ev :=
  let g := get_with_validator
    (fun e => (e.msg_type == dataCode || e.msg_type == endOfDataCode) &&
      e.receiver_id == id) 10 rx
  match g.1 with
  | none => (none, ⟨g.2.1, busy⟩, g.2.2)
  | some e =>
    let s := Minimesh2.send_ack id e.transmitter_id busy
    (some e, ⟨g.2.1, s.1⟩, g.2.2 ++ s.2)

/-- `get_ack(transmitter_id)` of the earlier revision (minimesh.hpp lines
170-178): a validated receive for the matching `Ack`, 3 attempts. -/
def get_ack (id tid : Nat) (rx : List RxEvent) : Bool × List RxEvent × List Ev :=
  let g := get_with_validator
    (fun e => e.msg_type == ackCode && e.receiver_id == id &&
      e.transmitter_id == tid) 3 rx
  (g.1.isSome, g.2.1, g.2.2)

/-- `deliver_immediately(packet, length, max_attempts)` (minimesh.hpp lines
220-229): carrier-sense without a leading backoff sleep, transmit, wait for
the ack, retry up to `max_attempts` times. -/
def deliver_immediately (id : Nat) (pkt : List Nat) (len : Nat) : Nat → Env →
    Bool × Env × List Ev
  | 0, env => (false, env, [])
  | n + 1, env =>
    let w := while_busy_sleep id env.busy
    let a := get_ack id (read32 pkt 8) env.rx
    if a.1 then (true, ⟨a.2.1, w.1⟩, w.2 ++ Ev.tx (pkt.take len) :: a.2.2)
    else
      let d := deliver_immediately id pkt len n ⟨a.2.1, w.1⟩
      (d.1, d.2.1, w.2 ++ Ev.tx (pkt.take len) :: a.2.2 ++ d.2.2)

/-- `proxy_children(amount, parent_id)` of the earlier revision (minimesh.hpp
lines 126-138), with fuel for the unbounded recursion.  Unlike minimesh2's
version, after rewriting the receiver and calling `deliver_immediately` it
ends with `return proxy_children(amount, parent_id)` — it keeps draining with
the same child count. -/
def proxy_children (id parent_id : Nat) : Nat → Nat → Env → Env × List Ev
  | _, 0, env => (env, [])
  | 0, _ + 1, env => (env, [])
  | fuel + 1, amount + 1, env =>
    let g := get_child_data id env.rx env.busy
    match g.1 with
    | none => (g.2.1, g.2.2)
    | some e =>
      if e.msg_type = endOfDataCode then
        let p := proxy_children id parent_id fuel amount g.2.1
        (p.1, g.2.2 ++ p.2)
      else
        let d := deliver_immediately id (setReceiver e.buf parent_id) e.len 5 g.2.1
        let p := proxy_children id parent_id fuel (amount + 1) d.2.1
        (p.1, g.2.2 ++ d.2.2 ++ p.2)

end Minimesh1

namespace Minimesh2

/-! ### Helper lemmas about byte buffers and traces -/

theorem length_encodeHeader (a b c : Nat) : (encodeHeader a b c).length = 12 := rfl

theorem digits32 (c : Nat) :
    c % 256 + 256 * (c / 256 % 256) + 65536 * (c / 65536 % 256) +
      16777216 * (c / 16777216 % 256) = c % 4294967296 := by
  omega

theorem read32_enc_mt (a b c : Nat) (t : List Nat) :
    read32 (encodeHeader a b c ++ t) 0 = a % 4294967296 := by
  show a % 256 + 256 * (a / 256 % 256) + 65536 * (a / 65536 % 256) +
      16777216 * (a / 16777216 % 256) = _
  exact digits32 a

theorem read32_enc_tid (a b c : Nat) (t : List Nat) :
    read32 (encodeHeader a b c ++ t) 4 = b % 4294967296 := by
  show b % 256 + 256 * (b / 256 % 256) + 65536 * (b / 65536 % 256) +
      16777216 * (b / 16777216 % 256) = _
  exact digits32 b

theorem read32_enc_rid (a b c : Nat) (t : List Nat) :
    read32 (encodeHeader a b c ++ t) 8 = c % 4294967296 := by
  show c % 256 + 256 * (c / 256 % 256) + 65536 * (c / 65536 % 256) +
      16777216 * (c / 16777216 % 256) = _
  exact digits32 c

theorem msg_type_mk_enc (a b c : Nat) (t : List Nat) (n : Nat) :
    RxEvent.msg_type ⟨encodeHeader a b c ++ t, n⟩ = a % 4294967296 :=
  read32_enc_mt a b c t

theorem transmitter_mk_enc (a b c : Nat) (t : List Nat) (n : Nat) :
    RxEvent.transmitter_id ⟨encodeHeader a b c ++ t, n⟩ = b % 4294967296 :=
  read32_enc_tid a b c t

theorem receiver_mk_enc (a b c : Nat) (t : List Nat) (n : Nat) :
    RxEvent.receiver_id ⟨encodeHeader a b c ++ t, n⟩ = c % 4294967296 :=
  read32_enc_rid a b c t

theorem setReceiver_enc (a b c r : Nat) (t : List Nat) :
    setReceiver (encodeHeader a b c ++ t) r = encodeHeader a b r ++ t := rfl

theorem enc_take_full (a b c : Nat) (t : List Nat) :
    (encodeHeader a b c ++ t).take (12 + t.length) = encodeHeader a b c ++ t := by
  apply List.take_of_length_le
  simp [encodeHeader, write32]
  omega

theorem txs_append (s t : List Ev) : txs (s ++ t) = txs s ++ txs t := by
  induction s with
  | nil => rfl
  | cons e s ih => cases e <;> simp [txs, ih]

theorem callbackEvents_append (s t : List Ev) :
    callbackEvents (s ++ t) = callbackEvents s ++ callbackEvents t := by
  induction s with
  | nil => rfl
  | cons e s ih => cases e <;> simp [callbackEvents, ih]

theorem rxCallTimeouts_append (s t : List Ev) :
    rxCallTimeouts (s ++ t) = rxCallTimeouts s ++ rxCallTimeouts t := by
  induction s with
  | nil => rfl
  | cons e s ih => cases e <;> simp [rxCallTimeouts, ih]

theorem sleepCount_append (s t : List Ev) :
    sleepCount (s ++ t) = sleepCount s + sleepCount t := by
  induction s with
  | nil => simp [sleepCount]
  | cons e s ih => cases e <;> simp [sleepCount, ih] <;> omega

theorem txs_while_busy_sleep (id : Nat) (busy : List Bool) :
    txs (while_busy_sleep id busy).2 = [] := by
  induction busy with
  | nil => rfl
  | cons b rest ih =>
    by_cases hb : b <;> simp [while_busy_sleep, hb, txs, ih]

theorem rxCallTimeouts_while_busy_sleep (id : Nat) (busy : List Bool) :
    rxCallTimeouts (while_busy_sleep id busy).2 = [] := by
  induction busy with
  | nil => rfl
  | cons b rest ih =>
    by_cases hb : b <;> simp [while_busy_sleep, hb, rxCallTimeouts, ih]

theorem callbackEvents_while_busy_sleep (id : Nat) (busy : List Bool) :
    callbackEvents (while_busy_sleep id busy).2 = [] := by
  induction busy with
  | nil => rfl
  | cons b rest ih =>
    by_cases hb : b <;> simp [while_busy_sleep, hb, callbackEvents, ih]

theorem while_busy_sleep_head (id : Nat) (busy : List Bool) :
    ∃ b0 t, (while_busy_sleep id busy).2 = Ev.busyCheck b0 :: t := by
  cases busy with
  | nil => exact ⟨false, [], rfl⟩
  | cons b rest =>
    by_cases hb : b
    · refine ⟨true, Ev.sleep (sleep_time id) :: (while_busy_sleep id rest).2, ?_⟩
      simp [while_busy_sleep, hb]
    · refine ⟨false, [], ?_⟩
      simp [while_busy_sleep, hb]

theorem txs_send_ack (id rid : Nat) (busy : List Bool) :
    txs (send_ack id rid busy).2 = [encodeHeader ackCode id rid] := by
  simp [send_ack, txs_append, txs_while_busy_sleep, txs]

theorem callbackEvents_send_ack (id rid : Nat) (busy : List Bool) :
    callbackEvents (send_ack id rid busy).2 = [] := by
  simp [send_ack, callbackEvents_append, callbackEvents_while_busy_sleep, callbackEvents]

theorem rxCallTimeouts_send_ack (id rid : Nat) (busy : List Bool) :
    rxCallTimeouts (send_ack id rid busy).2 = [] := by
  simp [send_ack, rxCallTimeouts_append, rxCallTimeouts_while_busy_sleep, rxCallTimeouts]

theorem callbackEvents_transmit_i_am_parent (id : Nat) (busy : List Bool) :
    callbackEvents (transmit_i_am_parent id busy).2 = [] := by
  simp [transmit_i_am_parent, callbackEvents, callbackEvents_append,
    callbackEvents_while_busy_sleep]

theorem getD_take (l : List Nat) (n m : Nat) (h : m < n) :
    (l.take n).getD m 0 = l.getD m 0 := by
  simp [List.getD_eq_getElem?_getD, List.getElem?_take, h]

theorem read32_take_of_le (l : List Nat) (len off : Nat) (h : off + 4 ≤ len) :
    read32 (l.take len) off = read32 l off := by
  simp only [read32]
  rw [getD_take _ _ _ (by omega), getD_take _ _ _ (by omega), getD_take _ _ _ (by omega),
    getD_take _ _ _ (by omega)]

theorem setReceiver_length (buf : List Nat) (r : Nat) (h : 12 ≤ buf.length) :
    (setReceiver buf r).length = buf.length := by
  simp [setReceiver, write32]
  omega

theorem getD_setReceiver_lo (buf : List Nat) (r i : Nat) (h8 : 8 ≤ buf.length)
    (hi : i < 8) : (setReceiver buf r).getD i 0 = buf.getD i 0 := by
  unfold setReceiver
  rw [List.getD_append _ _ _ _ (by simp [List.length_take, write32]; omega),
    List.getD_append _ _ _ _ (by simp [List.length_take]; omega)]
  exact getD_take buf 8 i hi

theorem getD_setReceiver_mid (buf : List Nat) (r j : Nat) (h8 : 8 ≤ buf.length)
    (hj : j < 4) : (setReceiver buf r).getD (8 + j) 0 = (write32 r).getD j 0 := by
  have hlen : (buf.take 8).length = 8 := by
    simp [List.length_take]
    omega
  unfold setReceiver
  rw [List.getD_append _ _ _ _ (by simp [List.length_take, write32]; omega),
    List.getD_append_right (buf.take 8) _ 0 (8 + j) (by omega), hlen]
  have hj8 : 8 + j - 8 = j := by omega
  rw [hj8]

theorem read32_setReceiver_lo (buf : List Nat) (r off : Nat) (h8 : 8 ≤ buf.length)
    (hoff : off + 4 ≤ 8) : read32 (setReceiver buf r) off = read32 buf off := by
  simp only [read32]
  rw [getD_setReceiver_lo _ _ _ h8 (by omega), getD_setReceiver_lo _ _ _ h8 (by omega),
    getD_setReceiver_lo _ _ _ h8 (by omega), getD_setReceiver_lo _ _ _ h8 (by omega)]

theorem read32_setReceiver_rid (buf : List Nat) (r : Nat) (h8 : 8 ≤ buf.length) :
    read32 (setReceiver buf r) 8 = r % 4294967296 := by
  have h0 : (setReceiver buf r).getD 8 0 = (write32 r).getD 0 0 := by
    simpa using getD_setReceiver_mid buf r 0 h8 (by omega)
  have h1 : (setReceiver buf r).getD 9 0 = (write32 r).getD 1 0 := by
    simpa using getD_setReceiver_mid buf r 1 h8 (by omega)
  have h2 : (setReceiver buf r).getD 10 0 = (write32 r).getD 2 0 := by
    simpa using getD_setReceiver_mid buf r 2 h8 (by omega)
  have h3 : (setReceiver buf r).getD 11 0 = (write32 r).getD 3 0 := by
    simpa using getD_setReceiver_mid buf r 3 h8 (by omega)
  have e1 : (8 : Nat) + 1 = 9 := rfl
  have e2 : (8 : Nat) + 2 = 10 := rfl
  have e3 : (8 : Nat) + 3 = 11 := rfl
  simp only [read32, e1, e2, e3]
  rw [h0, h1, h2, h3]
  show r % 256 + 256 * (r / 256 % 256) + 65536 * (r / 65536 % 256) +
    16777216 * (r / 16777216 % 256) = _
  exact digits32 r

theorem drop12_setReceiver (buf : List Nat) (r : Nat) (h12 : 12 ≤ buf.length) :
    (setReceiver buf r).drop 12 = buf.drop 12 := by
  unfold setReceiver
  rw [List.drop_left' (by simp [write32, List.length_take]; omega)]

theorem read32_enc_mt0 (a b c : Nat) : read32 (encodeHeader a b c) 0 = a % 4294967296 := by
  have h := read32_enc_mt a b c []
  rwa [List.append_nil] at h

theorem read32_enc_tid0 (a b c : Nat) : read32 (encodeHeader a b c) 4 = b % 4294967296 := by
  have h := read32_enc_tid a b c []
  rwa [List.append_nil] at h

theorem read32_enc_rid0 (a b c : Nat) : read32 (encodeHeader a b c) 8 = c % 4294967296 := by
  have h := read32_enc_rid a b c []
  rwa [List.append_nil] at h

theorem msg_type_mk_enc0 (a b c n : Nat) :
    RxEvent.msg_type ⟨encodeHeader a b c, n⟩ = a % 4294967296 := read32_enc_mt0 a b c

theorem transmitter_mk_enc0 (a b c n : Nat) :
    RxEvent.transmitter_id ⟨encodeHeader a b c, n⟩ = b % 4294967296 := read32_enc_tid0 a b c

theorem receiver_mk_enc0 (a b c n : Nat) :
    RxEvent.receiver_id ⟨encodeHeader a b c, n⟩ = c % 4294967296 := read32_enc_rid0 a b c

theorem ackWindows_nil (id tid : Nat) : ∀ n, ackWindows id tid n [] = false := by
  intro n
  induction n with
  | zero => rfl
  | succ n ih => simp [ackWindows, ih]

theorem isAckFor_true_iff (id tid : Nat) (e : RxEvent) :
    isAckFor id tid e = true ↔
      (e.len ≠ 0 ∧ e.receiver_id = id ∧ e.transmitter_id = tid ∧ e.msg_type = ackCode) := by
  simp [isAckFor]

theorem isAckFor_false_of_not (id tid : Nat) (e : RxEvent)
    (hm : ¬(e.receiver_id = id ∧ e.transmitter_id = tid ∧ e.msg_type = ackCode)) :
    isAckFor id tid e = false := by
  cases hb : isAckFor id tid e
  · rfl
  · exact absurd ((isAckFor_true_iff id tid e).1 hb).2 hm

theorem get_ack_result (id tid : Nat) : ∀ (n : Nat) (rx : List RxEvent),
    (get_ack id tid n rx).1 = (rx.take n).any (isAckFor id tid) := by
  intro n
  induction n with
  | zero => intro rx; simp [get_ack]
  | succ n ih =>
    intro rx
    cases rx with
    | nil => simp [get_ack, ih]
    | cons e rest =>
      by_cases hlen : e.len = 0
      · have he : isAckFor id tid e = false := by simp [isAckFor, hlen]
        simp [get_ack, hlen, ih, he]
      · by_cases hm : e.receiver_id = id ∧ e.transmitter_id = tid ∧ e.msg_type = ackCode
        · have he : isAckFor id tid e = true :=
            (isAckFor_true_iff id tid e).2 ⟨hlen, hm⟩

          simp [get_ack, hlen, hm, he]
        · have he : isAckFor id tid e = false := isAckFor_false_of_not id tid e hm
          simp [get_ack, hlen, hm, ih, he]

theorem get_ack_rx (id tid : Nat) : ∀ (n : Nat) (rx : List RxEvent),
    (get_ack id tid n rx).1 = false → (get_ack id tid n rx).2.1 = rx.drop n := by
  intro n
  induction n with
  | zero => intro rx _; simp [get_ack]
  | succ n ih =>
    intro rx
    cases rx with
    | nil =>
      intro h
      simp only [get_ack] at h ⊢
      simpa using ih [] h
    | cons e rest =>
      by_cases hlen : e.len = 0
      · intro h
        simp only [get_ack, if_pos hlen] at h ⊢
        exact ih rest h
      · by_cases hm : e.receiver_id = id ∧ e.transmitter_id = tid ∧ e.msg_type = ackCode
        · intro h
          simp [get_ack, hlen, hm] at h
        · intro h
          simp only [get_ack, if_neg hlen, if_neg hm] at h ⊢
          exact ih rest h

theorem txs_get_ack (id tid : Nat) : ∀ (n : Nat) (rx : List RxEvent),
    txs (get_ack id tid n rx).2.2 = [] := by
  intro n
  induction n with
  | zero => intro rx; simp [get_ack, txs]
  | succ n ih =>
    intro rx
    cases rx with
    | nil => simp [get_ack, txs, ih]
    | cons e rest =>
      by_cases hlen : e.len = 0
      · simp [get_ack, hlen, txs, ih]
      · by_cases hm : e.receiver_id = id ∧ e.transmitter_id = tid ∧ e.msg_type = ackCode
        · simp [get_ack, hlen, hm, txs]
        · simp [get_ack, hlen, hm, txs, ih]

theorem callbackEvents_get_ack (id tid : Nat) : ∀ (n : Nat) (rx : List RxEvent),
    callbackEvents (get_ack id tid n rx).2.2 = [] := by
  intro n
  induction n with
  | zero => intro rx; simp [get_ack, callbackEvents]
  | succ n ih =>
    intro rx
    cases rx with
    | nil => simp [get_ack, callbackEvents, ih]
    | cons e rest =>
      by_cases hlen : e.len = 0
      · simp [get_ack, hlen, callbackEvents, ih]
      · by_cases hm : e.receiver_id = id ∧ e.transmitter_id = tid ∧ e.msg_type = ackCode
        · simp [get_ack, hlen, hm, callbackEvents]
        · simp [get_ack, hlen, hm, callbackEvents, ih]

theorem rxCallTimeouts_get_ack (id tid : Nat) : ∀ (n : Nat) (rx : List RxEvent),
    ∃ k, k ≤ n ∧ rxCallTimeouts (get_ack id tid n rx).2.2 = List.replicate k 10 := by
  intro n
  induction n with
  | zero => intro rx; exact ⟨0, Nat.le_refl 0, by simp [get_ack, rxCallTimeouts]⟩
  | succ n ih =>
    intro rx
    cases rx with
    | nil =>
      obtain ⟨k, hk, hr⟩ := ih []
      exact ⟨k + 1, by omega, by simp [get_ack, rxCallTimeouts, hr, List.replicate]⟩
    | cons e rest =>
      by_cases hlen : e.len = 0
      · obtain ⟨k, hk, hr⟩ := ih rest
        exact ⟨k + 1, by omega, by simp [get_ack, hlen, rxCallTimeouts, hr, List.replicate]⟩
      · by_cases hm : e.receiver_id = id ∧ e.transmitter_id = tid ∧ e.msg_type = ackCode
        · exact ⟨1, by omega, by simp [get_ack, hlen, hm, rxCallTimeouts, List.replicate]⟩
        · obtain ⟨k, hk, hr⟩ := ih rest
          exact ⟨k + 1, by omega, by simp [get_ack, hlen, hm, rxCallTimeouts, hr, List.replicate]⟩

theorem deliver_loop_result (id : Nat) (pkt : List Nat) (len : Nat) :
    ∀ (n : Nat) (env : Env),
      (deliver_loop id pkt len n env).1 = ackWindows id (read32 pkt 8) n env.rx := by
  intro n
  induction n with
  | zero => intro env; simp [deliver_loop, ackWindows]
  | succ n ih =>
    intro env
    simp only [deliver_loop]
    by_cases ha : (get_ack id (read32 pkt 8) 3 env.rx).1 = true
    · have hw : (env.rx.take 3).any (isAckFor id (read32 pkt 8)) = true := by
        rw [← get_ack_result]; exact ha
      simp [ha, ackWindows, hw]
    · have ha' : (get_ack id (read32 pkt 8) 3 env.rx).1 = false :=
        Bool.not_eq_true _ ▸ Bool.eq_false_iff.2 ha
      have hw : (env.rx.take 3).any (isAckFor id (read32 pkt 8)) = false := by
        rw [← get_ack_result]; exact ha'
      have hdrop := get_ack_rx id (read32 pkt 8) 3 env.rx ha'
      simp only [ha', if_neg ha, ackWindows, hw, Bool.false_or]
      rw [ih ⟨(get_ack id (read32 pkt 8) 3 env.rx).2.1, (while_busy_sleep id env.busy).1⟩]
      rw [hdrop]
      simp

theorem deliver_loop_trace (id : Nat) (pkt : List Nat) (len : Nat) :
    ∀ (n : Nat) (env : Env), ∃ m K, m ≤ n ∧ K ≤ 3 * m ∧
      txs (deliver_loop id pkt len n env).2.2 = List.replicate m (pkt.take len) ∧
      rxCallTimeouts (deliver_loop id pkt len n env).2.2 = List.replicate K 10 ∧
      ((deliver_loop id pkt len n env).1 = false → m = n) := by
  intro n
  induction n with
  | zero =>
    intro env
    exact ⟨0, 0, Nat.le_refl 0, by omega, by simp [deliver_loop, txs],
      by simp [deliver_loop, rxCallTimeouts], fun _ => rfl⟩
  | succ n ih =>
    intro env
    obtain ⟨k, hk, hkr⟩ := rxCallTimeouts_get_ack id (read32 pkt 8) 3 env.rx
    by_cases ha : (get_ack id (read32 pkt 8) 3 env.rx).1 = true
    · refine ⟨1, k, by omega, by omega, ?_, ?_, ?_⟩
      · simp [deliver_loop, ha, txs_append, txs_while_busy_sleep, txs,
          txs_get_ack, List.replicate]
      · simp [deliver_loop, ha, rxCallTimeouts_append, rxCallTimeouts_while_busy_sleep,
          rxCallTimeouts, hkr]
      · simp [deliver_loop, ha]
    · obtain ⟨m, K, hm, hK, htx, hrx, hf⟩ :=
        ih ⟨(get_ack id (read32 pkt 8) 3 env.rx).2.1, (while_busy_sleep id env.busy).1⟩
      refine ⟨m + 1, k + K, by omega, by omega, ?_, ?_, ?_⟩
      · simp [deliver_loop, ha, txs_append, txs_while_busy_sleep, txs,
          txs_get_ack, htx, List.replicate]
      · simp only [deliver_loop, if_neg ha]
        simp [rxCallTimeouts_append, rxCallTimeouts_while_busy_sleep,
          rxCallTimeouts, hkr, hrx, ← List.replicate_add]
      · intro hfalse
        simp only [deliver_loop, if_neg ha] at hfalse
        exact congrArg (· + 1) (hf hfalse)

theorem callbackEvents_deliver_loop (id : Nat) (pkt : List Nat) (len : Nat) :
    ∀ (n : Nat) (env : Env), callbackEvents (deliver_loop id pkt len n env).2.2 = [] := by
  intro n
  induction n with
  | zero => intro env; simp [deliver_loop, callbackEvents]
  | succ n ih =>
    intro env
    by_cases ha : (get_ack id (read32 pkt 8) 3 env.rx).1 = true
    · simp [deliver_loop, ha, callbackEvents_append, callbackEvents_while_busy_sleep,
        callbackEvents, callbackEvents_get_ack]
    · simp [deliver_loop, ha, callbackEvents_append, callbackEvents_while_busy_sleep,
        callbackEvents, callbackEvents_get_ack, ih]

/-! ### Claim theorems -/

/-- Claim C5: `deliver` transmits the packet at most 10 times (always the same
first `len` bytes of the packet buffer); its receive calls all carry the 10 ms
timeout and number at most 3 per transmission attempt (the `get_ack` window);
the result is `Ok` exactly when one of the 10 ack windows — 3 receive results
each — contains an `Ack` frame with `receiver_id = id` and
`transmitter_id = packet->receiver_id`, so `Fail` is returned iff all 10
transmit-and-ack-wait attempts fail, in which case all 10 transmissions
happened. -/
theorem deliver_spec (id : Nat) (pkt : List Nat) (len : Nat) (env : Env) :
    (deliver id pkt len env).1 = ackWindows id (read32 pkt 8) 10 env.rx ∧
    (∃ m K, m ≤ 10 ∧ K ≤ 3 * m ∧
      txs (deliver id pkt len env).2.2 = List.replicate m (pkt.take len) ∧
      rxCallTimeouts (deliver id pkt len env).2.2 = List.replicate K 10 ∧
      ((deliver id pkt len env).1 = false → m = 10)) :=
  ⟨deliver_loop_result id pkt len 10 env, deliver_loop_trace id pkt len 10 env⟩

/-- Witness for C5: on a stream holding a single matching ack, `deliver`
returns `Ok`, and the `ackWindows` characterization of `deliver_spec` agrees. -/
theorem deliver_spec_witness :
    (deliver 5 (encodeHeader dataCode 5 3) 12 ⟨[⟨encodeHeader ackCode 3 5, 12⟩], []⟩).1 =
      ackWindows 5 (read32 (encodeHeader dataCode 5 3) 8) 10 [⟨encodeHeader ackCode 3 5, 12⟩] ∧
    (deliver 5 (encodeHeader dataCode 5 3) 12 ⟨[⟨encodeHeader ackCode 3 5, 12⟩], []⟩).1 = true :=
  ⟨(deliver_spec 5 (encodeHeader dataCode 5 3) 12 ⟨[⟨encodeHeader ackCode 3 5, 12⟩], []⟩).1,
   by decide⟩

/-- Claim C8: `send_ack` hands exactly one frame to `transmit` — the 12-byte
header-only frame with `msg_type = Ack`, `transmitter_id = self.id`,
`receiver_id = the original transmitter` — and its first host call is the
carrier-sense check, never a backoff sleep; when the channel reads free the
trace is just the check followed by the transmission, with zero sleeps. -/
theorem send_ack_spec (id rid : Nat) (hid : id < 4294967296) (hrid : rid < 4294967296) :
    (∀ busy, txs (send_ack id rid busy).2 = [encodeHeader ackCode id rid]) ∧
    (encodeHeader ackCode id rid).length = 12 ∧
    read32 (encodeHeader ackCode id rid) 0 = ackCode ∧
    read32 (encodeHeader ackCode id rid) 4 = id ∧
    read32 (encodeHeader ackCode id rid) 8 = rid ∧
    (∀ busy, ∃ b0 t, (send_ack id rid busy).2 = Ev.busyCheck b0 :: t) ∧
    (∀ rest, (send_ack id rid (false :: rest)).2 =
      [Ev.busyCheck false, Ev.tx (encodeHeader ackCode id rid)]) ∧
    (∀ rest, sleepCount (send_ack id rid (false :: rest)).2 = 0) := by
  refine ⟨txs_send_ack id rid, length_encodeHeader _ _ _, ?_, ?_, ?_, ?_, ?_, ?_⟩
  · have h := read32_enc_mt ackCode id rid []
    rw [List.append_nil] at h
    rw [h]
    norm_num [ackCode]
  · have h := read32_enc_tid ackCode id rid []
    rw [List.append_nil] at h
    rw [h]
    exact Nat.mod_eq_of_lt hid
  · have h := read32_enc_rid ackCode id rid []
    rw [List.append_nil] at h
    rw [h]
    exact Nat.mod_eq_of_lt hrid
  · intro busy
    obtain ⟨b0, t, ht⟩ := while_busy_sleep_head id busy
    exact ⟨b0, t ++ [Ev.tx (encodeHeader ackCode id rid)], by simp [send_ack, ht]⟩
  · intro rest
    simp [send_ack, while_busy_sleep]
  · intro rest
    simp [send_ack, while_busy_sleep, sleepCount]

/-- Witness for C8 at `id = 5`, `rid = 7` and a free channel. -/
theorem send_ack_spec_witness :
    txs (send_ack 5 7 [false]).2 = [encodeHeader ackCode 5 7] ∧
    read32 (encodeHeader ackCode 5 7) 4 = 5 ∧
    sleepCount (send_ack 5 7 [false]).2 = 0 := by
  have h := send_ack_spec 5 7 (by norm_num) (by norm_num)
  exact ⟨h.1 [false], h.2.2.2.1, h.2.2.2.2.2.2.2 []⟩

/-- Claim C7: `find_parent` accepts any received frame whose `msg_type` is
`IAmParent` — its `receiver_id` is never examined — and restarts parent
discovery on every other frame; on acceptance it delivers an `IAmChild` frame
with `transmitter_id = self.id` and `receiver_id = the invitation's
transmitter_id`, returns that transmitter id when `deliver` reports `Ok`, and
restarts parent discovery when `deliver` reports `Fail`. -/
theorem find_parent_spec (id fuel : Nat) (e : RxEvent) (rest : List RxEvent)
    (busy : List Bool) (hid : id < 4294967296) (ht : e.transmitter_id < 4294967296) :
    (e.msg_type ≠ iAmParentCode →
      find_parent id (fuel + 1) ⟨e :: rest, busy⟩ =
        ((find_parent id fuel ⟨rest, busy⟩).1, (find_parent id fuel ⟨rest, busy⟩).2.1,
          Ev.rxCall 0 :: (find_parent id fuel ⟨rest, busy⟩).2.2)) ∧
    (e.msg_type = iAmParentCode →
      read32 (encodeHeader iAmChildCode id e.transmitter_id) 0 = iAmChildCode ∧
      read32 (encodeHeader iAmChildCode id e.transmitter_id) 4 = id ∧
      read32 (encodeHeader iAmChildCode id e.transmitter_id) 8 = e.transmitter_id ∧
      ((deliver id (encodeHeader iAmChildCode id e.transmitter_id) header_size
          ⟨rest, busy⟩).1 = true →
        find_parent id (fuel + 1) ⟨e :: rest, busy⟩ =
          (some e.transmitter_id,
            (deliver id (encodeHeader iAmChildCode id e.transmitter_id) header_size
              ⟨rest, busy⟩).2.1,
            Ev.rxCall 0 :: (deliver id (encodeHeader iAmChildCode id e.transmitter_id)
              header_size ⟨rest, busy⟩).2.2)) ∧
      ((deliver id (encodeHeader iAmChildCode id e.transmitter_id) header_size
          ⟨rest, busy⟩).1 = false →
        find_parent id (fuel + 1) ⟨e :: rest, busy⟩ =
          ((find_parent id fuel (deliver id (encodeHeader iAmChildCode id e.transmitter_id)
              header_size ⟨rest, busy⟩).2.1).1,
            (find_parent id fuel (deliver id (encodeHeader iAmChildCode id e.transmitter_id)
              header_size ⟨rest, busy⟩).2.1).2.1,
            Ev.rxCall 0 :: (deliver id (encodeHeader iAmChildCode id e.transmitter_id)
                header_size ⟨rest, busy⟩).2.2 ++
              (find_parent id fuel (deliver id (encodeHeader iAmChildCode id e.transmitter_id)
                header_size ⟨rest, busy⟩).2.1).2.2))) := by
  constructor
  · intro h
    simp only [find_parent]
    rw [if_pos h]
  · intro h
    refine ⟨?_, ?_, ?_, ?_, ?_⟩
    · have hr := read32_enc_mt iAmChildCode id e.transmitter_id []
      rw [List.append_nil] at hr
      rw [hr]
      norm_num [iAmChildCode]
    · have hr := read32_enc_tid iAmChildCode id e.transmitter_id []
      rw [List.append_nil] at hr
      rw [hr]
      exact Nat.mod_eq_of_lt hid
    · have hr := read32_enc_rid iAmChildCode id e.transmitter_id []
      rw [List.append_nil] at hr
      rw [hr]
      exact Nat.mod_eq_of_lt ht
    · intro hd
      simp only [find_parent]
      rw [if_neg (not_not_intro h), if_pos hd]
    · intro hd
      simp only [find_parent]
      rw [if_neg (not_not_intro h), if_neg (by simp [hd])]

/-- Witness for C7: a broadcast `IAmParent` invitation from node 7 followed by
node 7's ack makes `find_parent` on node 5 adopt parent 7. -/
theorem find_parent_spec_witness :
    (find_parent 5 4 ⟨[⟨encodeHeader iAmParentCode 7 0, 12⟩,
        ⟨encodeHeader ackCode 7 5, 12⟩], []⟩).1 = some 7 := by
  have h := (find_parent_spec 5 3 ⟨encodeHeader iAmParentCode 7 0, 12⟩
    [⟨encodeHeader ackCode 7 5, 12⟩] [] (by norm_num) (by decide)).2 (by decide)
  have heq := h.2.2.2.1 (by decide)
  rw [heq]
  decide

/-- Claim C9: when the sensor proxy loop forwards a `Data` frame, what it
transmits (after the ack to the child) is, in every delivery attempt, the
received frame with only the receiver field rewritten to `parent_id`:
same byte length, same `msg_type`, same `transmitter_id`, and the payload
bytes beyond the 12-byte header unchanged. -/
theorem proxy_forward_preserves_frame (id parent_id fuel cc : Nat) (e : RxEvent)
    (rest : List RxEvent) (busy : List Bool)
    (hrid : e.receiver_id = id) (hmt : e.msg_type = dataCode)
    (hlen12 : 12 ≤ e.len) (hle : e.len ≤ e.buf.length) (hpid : parent_id < 4294967296) :
    ∃ m, m ≤ 10 ∧
      txs (proxy_children id parent_id (fuel + 1) (cc + 1) ⟨e :: rest, busy⟩).2 =
        encodeHeader ackCode id e.transmitter_id ::
          List.replicate m ((setReceiver e.buf parent_id).take e.len) ∧
      ((setReceiver e.buf parent_id).take e.len).length = e.len ∧
      read32 ((setReceiver e.buf parent_id).take e.len) 0 = e.msg_type ∧
      read32 ((setReceiver e.buf parent_id).take e.len) 4 = e.transmitter_id ∧
      read32 ((setReceiver e.buf parent_id).take e.len) 8 = parent_id ∧
      ((setReceiver e.buf parent_id).take e.len).drop 12 = (e.buf.take e.len).drop 12 := by
  have h12 : 12 ≤ e.buf.length := le_trans hlen12 hle
  have h8 : 8 ≤ e.buf.length := by omega
  have hlen0 : ¬ e.len = 0 := by omega
  obtain ⟨m, K, hm, _, htx, _, _⟩ := deliver_loop_trace id (setReceiver e.buf parent_id)
    e.len 10 ⟨rest, (send_ack id e.transmitter_id busy).1⟩
  refine ⟨m, hm, ?_, ?_, ?_, ?_, ?_, ?_⟩
  · simp only [proxy_children]
    rw [if_neg hlen0, if_neg (not_not_intro hrid),
      if_neg (fun h => h.1 hmt),
      if_neg (by rw [hmt]; decide)]
    simp only [txs, List.append_eq, txs_append, txs_send_ack, deliver]
    rw [htx]
    rfl
  · rw [List.length_take, setReceiver_length _ _ h12]
    omega
  · rw [read32_take_of_le _ _ _ (by omega), read32_setReceiver_lo _ _ _ h8 (by omega)]
    rfl
  · rw [read32_take_of_le _ _ _ (by omega), read32_setReceiver_lo _ _ _ h8 (by omega)]
    rfl
  · rw [read32_take_of_le _ _ _ (by omega), read32_setReceiver_rid _ _ h8]
    exact Nat.mod_eq_of_lt hpid
  · rw [List.drop_take, List.drop_take, drop12_setReceiver _ _ h12]

/-- Witness for C9: a 13-byte `Data` frame from child 2 to node 5 is forwarded
to parent 3 with the transmitter and payload intact. -/
theorem proxy_forward_preserves_frame_witness :
    ∃ m, m ≤ 10 ∧
      txs (proxy_children 5 3 9 1 ⟨[⟨encodeHeader dataCode 2 5 ++ [9], 13⟩,
          ⟨encodeHeader ackCode 3 5, 12⟩], []⟩).2 =
        encodeHeader ackCode 5 (RxEvent.transmitter_id ⟨encodeHeader dataCode 2 5 ++ [9], 13⟩) ::
          List.replicate m
            ((setReceiver (encodeHeader dataCode 2 5 ++ [9]) 3).take 13) ∧
      ((setReceiver (encodeHeader dataCode 2 5 ++ [9]) 3).take 13).length = 13 ∧
      read32 ((setReceiver (encodeHeader dataCode 2 5 ++ [9]) 3).take 13) 0 =
        RxEvent.msg_type ⟨encodeHeader dataCode 2 5 ++ [9], 13⟩ ∧
      read32 ((setReceiver (encodeHeader dataCode 2 5 ++ [9]) 3).take 13) 4 =
        RxEvent.transmitter_id ⟨encodeHeader dataCode 2 5 ++ [9], 13⟩ ∧
      read32 ((setReceiver (encodeHeader dataCode 2 5 ++ [9]) 3).take 13) 8 = 3 ∧
      ((setReceiver (encodeHeader dataCode 2 5 ++ [9]) 3).take 13).drop 12 =
        ((encodeHeader dataCode 2 5 ++ [9]).take 13).drop 12 :=
  proxy_forward_preserves_frame 5 3 8 0 ⟨encodeHeader dataCode 2 5 ++ [9], 13⟩
    [⟨encodeHeader ackCode 3 5, 12⟩] [] (by decide) (by decide) (by decide) (by decide)
    (by norm_num)

/-- Claim C1, evaluated on minimesh2's `proxy_children` at a failing input:
node 5 proxies for parent 3 with `child_count = 1`; the receive stream holds a
13-byte `Data` frame from child 2 addressed to 5, the parent's ack, and the
child's `EndOfData`.  After acking and forwarding the `Data` frame the loop
returns instead of recursing: the `EndOfData` result is still pending in the
receive stream, and only one 5000 ms proxy receive (plus the single 10 ms ack
receive of the delivery) was ever issued. -/
theorem proxy_data_forward_terminates_loop :
    (proxy_children 5 3 9 1 ⟨[⟨encodeHeader dataCode 2 5 ++ [9], 13⟩,
        ⟨encodeHeader ackCode 3 5, 12⟩, ⟨encodeHeader endOfDataCode 2 5, 12⟩], []⟩).1.rx =
      [⟨encodeHeader endOfDataCode 2 5, 12⟩] ∧
    rxCallTimeouts (proxy_children 5 3 9 1 ⟨[⟨encodeHeader dataCode 2 5 ++ [9], 13⟩,
        ⟨encodeHeader ackCode 3 5, 12⟩, ⟨encodeHeader endOfDataCode 2 5, 12⟩], []⟩).2 =
      [5000, 10] := by
  decide

/-- Counterexample to claim C2 as stated: in the one-collector/one-sensor
round with payload `[170, 187, 204]`, the collector callback is invoked with
the entire 15-byte frame — the 12 header bytes followed by the payload — and
not with the 3 payload bytes alone. -/
theorem collector_callback_includes_header_cex :
    callbackEvents (run_as_collector 1 ⟨[⟨encodeHeader iAmChildCode 2 1, 12⟩, ⟨[], 0⟩,
        ⟨encodeHeader dataCode 2 1 ++ [170, 187, 204], 15⟩,
        ⟨encodeHeader endOfDataCode 2 1, 12⟩], []⟩).2 =
      [(2, encodeHeader dataCode 2 1 ++ [170, 187, 204])] ∧
    encodeHeader dataCode 2 1 ++ [170, 187, 204] ≠ [170, 187, 204] := by
  decide

/-- Claim C2, amended: in a one-collector/one-sensor round the collector
callback is invoked exactly once, with the sensor's id and the **entire
received frame bytes** — the 12-byte header followed by the payload `P` —
rather than the payload alone (the payload is recoverable as the bytes after
`header_size`). -/
theorem collector_callback_whole_frame (sid cid : Nat) (P : List Nat) (busy : List Bool)
    (hs : sid < 4294967296) (hc : cid < 4294967296) :
    callbackEvents (run_as_collector cid ⟨[⟨encodeHeader iAmChildCode sid cid, 12⟩, ⟨[], 0⟩,
        ⟨encodeHeader dataCode sid cid ++ P, 12 + P.length⟩,
        ⟨encodeHeader endOfDataCode sid cid, 12⟩], busy⟩).2 =
      [(sid, encodeHeader dataCode sid cid ++ P)] ∧
    (encodeHeader dataCode sid cid ++ P).drop header_size = P := by
  have hs' : sid % 4294967296 = sid := Nat.mod_eq_of_lt hs
  have hc' : cid % 4294967296 = cid := Nat.mod_eq_of_lt hc
  constructor
  · simp [run_as_collector, count_children, count_children_loop, collector_loop,
      msg_type_mk_enc0, transmitter_mk_enc0, receiver_mk_enc0,
      msg_type_mk_enc, transmitter_mk_enc, receiver_mk_enc, hs', hc',
      iAmChildCode, dataCode, endOfDataCode, enc_take_full,
      callbackEvents, callbackEvents_append, callbackEvents_transmit_i_am_parent,
      callbackEvents_send_ack, callbackEvents_while_busy_sleep]
  · simp only [header_size]
    exact List.drop_left' (length_encodeHeader _ _ _)

/-- Witness for the amended C2 at collector 1, sensor 2, payload
`[170, 187, 204]` and an idle channel. -/
theorem collector_callback_whole_frame_witness :
    callbackEvents (run_as_collector 1 ⟨[⟨encodeHeader iAmChildCode 2 1, 12⟩, ⟨[], 0⟩,
        ⟨encodeHeader dataCode 2 1 ++ [170, 187, 204], 12 + [170, 187, 204].length⟩,
        ⟨encodeHeader endOfDataCode 2 1, 12⟩], []⟩).2 =
      [(2, encodeHeader dataCode 2 1 ++ [170, 187, 204])] :=
  (collector_callback_whole_frame 2 1 [170, 187, 204] [] (by norm_num) (by norm_num)).1

/-- Counterexample to claim C3 as stated: a received result of 4 bytes —
shorter than the 12-byte header — whose buffer decodes as a `Data` frame
addressed to the collector is *not* discarded: the drain loop reads its
header fields and invokes the callback on it. -/
theorem short_frame_acted_on_cex :
    callbackEvents (collector_loop 1 [⟨encodeHeader dataCode 2 1, 4⟩] 1 []).2 =
      [(2, (encodeHeader dataCode 2 1).take 4)] ∧
    0 < 4 ∧ 4 < header_size := by
  decide

/-- Claim C3, amended: the receive path applies no minimum-length check —
only a reported length of exactly 0 (a timeout) is discarded.  Any received
result with nonzero reported length, however short, has its header fields
read from the receive buffer and is processed like a full frame: the
collector drain invokes the callback for such a frame when it decodes as a
`Data` frame addressed to this node. -/
theorem receive_discards_only_zero_length (id cc : Nat) (e : RxEvent) (rx : List RxEvent)
    (busy : List Bool) (hlen : ¬ e.len = 0) (hrid : e.receiver_id = id)
    (hmt : e.msg_type = dataCode) :
    (∃ t, callbackEvents (collector_loop id (e :: rx) (cc + 1) busy).2 =
        (e.transmitter_id, e.buf.take e.len) :: t) ∧
    (∀ (b : List Nat) (rx2 : List RxEvent) (busy2 : List Bool),
      collector_loop id (⟨b, 0⟩ :: rx2) (cc + 1) busy2 = (⟨rx2, busy2⟩, [Ev.rxCall 5000])) := by
  constructor
  · refine ⟨callbackEvents (collector_loop id rx (cc + 1)
      (send_ack id e.transmitter_id busy).1).2, ?_⟩
    simp only [collector_loop]
    rw [if_neg hlen, if_neg (not_not_intro hrid),
      if_neg (show ¬ e.msg_type = endOfDataCode by rw [hmt]; decide),
      if_neg (show ¬ e.msg_type = endOfDataCode by rw [hmt]; decide),
      if_pos hmt]
    simp [callbackEvents, callbackEvents_append, callbackEvents_send_ack]
  · intro b rx2 busy2
    simp [collector_loop]

/-- Witness for the amended C3: the 4-byte `Data` frame addressed to
collector 1 triggers the callback. -/
theorem receive_discards_only_zero_length_witness :
    ∃ t, callbackEvents (collector_loop 1 [⟨encodeHeader dataCode 2 1, 4⟩] 1 []).2 =
      (2, (encodeHeader dataCode 2 1).take 4) :: t := by
  obtain ⟨t, ht⟩ := (receive_discards_only_zero_length 1 0 ⟨encodeHeader dataCode 2 1, 4⟩
    [] [] (by decide) (by decide) (by decide)).1
  exact ⟨t, by rw [ht]; rfl⟩

/-- Claim C4, evaluated at the failing configuration `data_length = 250`:
the code's `static_assert` compares `data_length` against `max_packet_size`
(255) instead of `max_data_length` (243), so 250 passes validation, and
`send_own_data` then hands 262-byte frames to `transmit` — exceeding the
255-byte frame bound the claim states. -/
theorem oversize_data_length_accepted :
    config_ok 250 ∧ max_data_length = 243 ∧ 243 < 250 ∧
    txs (send_own_data 5 250 3 (data_packet_init 5 250) ⟨[], []⟩).2 =
      List.replicate 10 (encodeHeader dataCode 5 3 ++ List.replicate 250 0) ∧
    (encodeHeader dataCode 5 3 ++ List.replicate 250 0).length = 262 ∧
    max_packet_size < (encodeHeader dataCode 5 3 ++ List.replicate 250 0).length := by
  refine ⟨by norm_num [config_ok, max_packet_size],
    by norm_num [max_data_length, max_packet_size, header_size], by norm_num, ?_,
    by simp [encodeHeader, write32], by simp [encodeHeader, write32, max_packet_size]⟩
  obtain ⟨m, K, hm, hK, htx, hrx, hf⟩ := deliver_loop_trace 5
    (encodeHeader dataCode 5 3 ++ List.replicate 250 0) 262 10 ⟨[], []⟩
  have hres := deliver_loop_result 5
    (encodeHeader dataCode 5 3 ++ List.replicate 250 0) 262 10 ⟨[], []⟩
  rw [ackWindows_nil] at hres
  have hm10 := hf hres
  simp only [send_own_data, deliver]
  rw [show setReceiver (data_packet_init 5 250) 3 =
        encodeHeader dataCode 5 3 ++ List.replicate 250 0 from rfl,
    show header_size + 250 = 262 from rfl]
  rw [htx, hm10, show (262 : Nat) = 12 + (List.replicate 250 (0 : Nat)).length by simp,
    enc_take_full]

/-- Claim C10: the sensor's pre-allocated data packet is initialized with
`msg_type = Data` and `transmitter_id = id`; a user write through
`get_data_buffer` touches only the payload area and `send_own_data` writes
only the receiver field, so both header fields survive every round operation
and every own-data frame handed to `transmit` carries `msg_type = Data` and
`transmitter_id = id`. -/
theorem data_packet_header_invariant (id L parent_id : Nat) (P : List Nat) (env : Env)
    (hid : id < 4294967296) (hP : P.length = L) :
    read32 (data_packet_init id L) 0 = dataCode ∧
    read32 (data_packet_init id L) 4 = id ∧
    set_payload (data_packet_init id L) P = encodeHeader dataCode id 0 ++ P ∧
    get_data_buffer (set_payload (data_packet_init id L) P) = P ∧
    read32 (set_payload (data_packet_init id L) P) 0 = dataCode ∧
    read32 (set_payload (data_packet_init id L) P) 4 = id ∧
    read32 (encodeHeader dataCode id parent_id ++ P) 0 = dataCode ∧
    read32 (encodeHeader dataCode id parent_id ++ P) 4 = id ∧
    (∃ m, m ≤ 10 ∧
      txs (send_own_data id L parent_id (set_payload (data_packet_init id L) P) env).2 =
        List.replicate m (encodeHeader dataCode id parent_id ++ P)) := by
  have hset : set_payload (data_packet_init id L) P = encodeHeader dataCode id 0 ++ P := rfl
  refine ⟨?_, ?_, hset, ?_, ?_, ?_, ?_, ?_, ?_⟩
  · rw [data_packet_init, read32_enc_mt]
    norm_num [dataCode]
  · rw [data_packet_init, read32_enc_tid]
    exact Nat.mod_eq_of_lt hid
  · rw [hset]
    exact List.drop_left' (length_encodeHeader _ _ _)
  · rw [hset, read32_enc_mt]
    norm_num [dataCode]
  · rw [hset, read32_enc_tid]
    exact Nat.mod_eq_of_lt hid
  · rw [read32_enc_mt]
    norm_num [dataCode]
  · rw [read32_enc_tid]
    exact Nat.mod_eq_of_lt hid
  · obtain ⟨m, K, hm, hK, htx, hrx, hf⟩ := deliver_loop_trace id
      (encodeHeader dataCode id parent_id ++ P) (12 + P.length) 10 env
    refine ⟨m, hm, ?_⟩
    rw [enc_take_full] at htx
    show txs (deliver_loop id (setReceiver (set_payload (data_packet_init id L) P) parent_id)
      (header_size + L) 10 env).2.2 = _
    rw [hset, setReceiver_enc, show header_size + L = 12 + P.length by rw [hP]; rfl]
    exact htx

/-- Witness for C10 at `id = 5`, `data_length = 3`, parent 7, payload
`[1, 2, 3]` and an empty environment. -/
theorem data_packet_header_invariant_witness :
    read32 (data_packet_init 5 3) 4 = 5 ∧
    get_data_buffer (set_payload (data_packet_init 5 3) [1, 2, 3]) = [1, 2, 3] ∧
    (∃ m, m ≤ 10 ∧
      txs (send_own_data 5 3 7 (set_payload (data_packet_init 5 3) [1, 2, 3]) ⟨[], []⟩).2 =
        List.replicate m (encodeHeader dataCode 5 7 ++ [1, 2, 3])) := by
  have h := data_packet_header_invariant 5 3 7 [1, 2, 3] ⟨[], []⟩ (by norm_num) (by decide)
  exact ⟨h.2.1, h.2.2.2.1, h.2.2.2.2.2.2.2.2⟩

theorem sleep_time_lt (id : Nat) : sleep_time id ≤ 9999 := by
  have h : id % 9000 < 9000 := Nat.mod_lt _ (by norm_num)
  simp only [sleep_time]
  omega

/-- Claim C6 as the code violates it is refuted here: node ids 1 and 9001 are
distinct, yet their backoff times `sleep_time` coincide. -/
theorem sleep_time_collision :
    sleep_time 1 = sleep_time 9001 ∧ (1 : Nat) ≠ 9001 := by
  constructor
  · rfl
  · decide

/-- Claim C6, amended: `sleep_time id = (id % 9000) + 1000` always lies in
[1000, 9999] μs, and two ids give the same backoff exactly when they are
congruent modulo 9000 — so distinct ids collide whenever they differ by a
multiple of 9000. -/
theorem sleep_time_range_and_injectivity :
    (∀ id : Nat, 1000 ≤ sleep_time id ∧ sleep_time id ≤ 9999) ∧
    (∀ a b : Nat, sleep_time a = sleep_time b ↔ a % 9000 = b % 9000) := by
  constructor
  · intro id
    refine ⟨by simp [sleep_time], sleep_time_lt id⟩
  · intro a b
    simp only [sleep_time]
    omega

end Minimesh2

namespace Minimesh1

open Minimesh2

/-- On the same three-result receive stream — a child's 13-byte `Data` frame,
the parent's ack, the child's `EndOfData` — the earlier revision's proxy loop
keeps draining after forwarding the `Data` frame: it consumes the whole
stream (the `EndOfData` included, decrementing the child count to zero) and
issues three 100 ms receives.  This is the behavior the specification
describes for the proxy loop, which minimesh2's version lost. -/
theorem proxy_children_recurses_after_forward :
    (proxy_children 5 3 9 1 ⟨[⟨encodeHeader dataCode 2 5 ++ [9], 13⟩,
        ⟨encodeHeader ackCode 3 5, 12⟩, ⟨encodeHeader endOfDataCode 2 5, 12⟩], []⟩).1.rx =
      [] ∧
    rxCallTimeouts (proxy_children 5 3 9 1 ⟨[⟨encodeHeader dataCode 2 5 ++ [9], 13⟩,
        ⟨encodeHeader ackCode 3 5, 12⟩, ⟨encodeHeader endOfDataCode 2 5, 12⟩], []⟩).2 =
      [100, 100, 100] := by
  decide

end Minimesh1
